import Mathlib

/- Verification development for the weather-agent repository.

Shallow embedding of:
  app/tools/business_partner_lookup.py  (search_business_partner)
  app/tools/weather_forecast.py         (_get_mock_weather_data,
    _process_forecast_data, validate_date, format_weather_response,
    weather_forecast, get_weather_forecast_data)
  app/agent.py                          (WeatherAgent._prepare_messages,
    WeatherAgent.stream)

Modelling conventions:
  - Python str values are Lean String; str.lower / str.strip / str.split
    are implemented structurally below so the kernel can evaluate them.
  - Instants (datetime.now()) are modelled as integer seconds; a
    calendar date is its proleptic-Gregorian day number (days since
    1970-01-01), so the datetime produced by fromisoformat for a
    date-only string is day * 86400 (midnight), and timedelta(days=7)
    is 7 * 86400.  Python floor division and modulo on int coincide
    with Lean Int `/` (ediv) and `%` (emod) for positive divisors.
  - Python floats (live-path temperatures, precipitation) are modelled
    as rationals; Python round (banker's rounding) is pyRound.
  - Python hash on strings is process-seeded; it enters the model as a
    parameter pyhash : String -> Int.
  - Network interaction and the LLM are outside the program text; they
    enter as oracle parameters (fetch / live / the stream outcome).
  - Fallible code returns Option / Except: a raised exception that the
    caller does not catch is None / Except.error.
-/

/-- Python str.lower (ASCII case folding, which covers all data in the
repository). -/
def strLower (s : String) : String := String.mk (s.data.map Char.toLower)

/-- Python str.strip: drop whitespace from both ends. -/
def strTrim (s : String) : String :=
  String.mk (((s.data.dropWhile Char.isWhitespace).reverse.dropWhile
    Char.isWhitespace).reverse)

/-- Python location.split(","): split on every comma, keeping empty
segments, over the character list of the string. -/
def splitComma : List Char → List (List Char)
  | [] => [[]]
  | c :: rest =>
    if c = ',' then [] :: splitComma rest
    else
      match splitComma rest with
      | h :: t => (c :: h) :: t
      | [] => [[c]]

/-- Helper for Python substring containment: needle occurs inside hay. -/
def listSub : List Char → List Char → Bool
  | needle, [] => needle.isEmpty
  | needle, c :: rest => needle.isPrefixOf (c :: rest) || listSub needle rest

/-- Python `needle in hay` on strings. -/
def strContainsSub (hay needle : String) : Bool := listSub needle.data hay.data

/-- Python truthiness of an Optional[str] argument (None and "" are falsy). -/
def strTruthy : Option String → Bool
  | none => false
  | some s => !(s == "")

/-- Gregorian leap-year test. -/
def isLeap (y : Int) : Bool := y % 4 == 0 && (y % 100 != 0 || y % 400 == 0)

/-- Number of days in a month of the Gregorian calendar. -/
def daysInMonth (y m : Int) : Int :=
  if m = 2 then (if isLeap y then 29 else 28)
  else if m = 4 ∨ m = 6 ∨ m = 9 ∨ m = 11 then 30
  else 31

/-- Day number (days since 1970-01-01) of a Gregorian calendar date;
standard civil-from-days correspondence, used to model the datetime
library. -/
def daysFromCivil (y m d : Int) : Int :=
  let y' := if m ≤ 2 then y - 1 else y
  let era := y' / 400
  let yoe := y' - era * 400
  let doy := (153 * (if 2 < m then m - 3 else m + 9) + 2) / 5 + d - 1
  let doe := yoe * 365 + yoe / 4 - yoe / 100 + doy
  era * 146097 + doe - 719468

/-- Inverse of daysFromCivil: the (year, month, day) of a day number. -/
def civilFromDays (z : Int) : Int × Int × Int :=
  let z' := z + 719468
  let era := z' / 146097
  let doe := z' - era * 146097
  let yoe := (doe - doe / 1460 + doe / 36524 - doe / 146096) / 365
  let y := yoe + era * 400
  let doy := doe - (365 * yoe + yoe / 4 - yoe / 100)
  let mp := (5 * doy + 2) / 153
  let d := doy - (153 * mp + 2) / 5 + 1
  let m := mp + (if mp < 10 then 3 else -9)
  (if m ≤ 2 then y + 1 else y, m, d)

/-- Numeric value of a decimal digit character. -/
def digitToInt (c : Char) : Int := Int.ofNat (c.toNat - 48)

/-- Python datetime.fromisoformat restricted to the calendar-date
fragment "YYYY-MM-DD" the tool documents (month, day and calendar
validity checked, as the library does); result is the day number of the
parsed date, i.e. its midnight instant divided by 86400. Unparseable
strings give none (the ValueError branch). -/
def fromisoformat (s : String) : Option Int :=
  match s.data with
  | [y1, y2, y3, y4, s1, m1, m2, s2, d1, d2] =>
    if (y1.isDigit && y2.isDigit && y3.isDigit && y4.isDigit &&
        (s1 == '-') && m1.isDigit && m2.isDigit && (s2 == '-') &&
        d1.isDigit && d2.isDigit) then
      let y := 1000 * digitToInt y1 + 100 * digitToInt y2 +
        10 * digitToInt y3 + digitToInt y4
      let m := 10 * digitToInt m1 + digitToInt m2
      let d := 10 * digitToInt d1 + digitToInt d2
      if 1 ≤ m ∧ m ≤ 12 ∧ 1 ≤ d ∧ d ≤ daysInMonth y m then
        some (daysFromCivil y m d)
      else none
    else none
  | _ => none

/-- Zero-padded two-digit field of strftime. -/
def pad2 (n : Int) : String := if n < 10 then "0" ++ toString n else toString n

/-- strftime("%Y-%m-%d") of the midnight of a day number. -/
def printISO (z : Int) : String :=
  let c := civilFromDays z
  toString c.1 ++ "-" ++ pad2 c.2.1 ++ "-" ++ pad2 c.2.2

/-- Full weekday name of strftime("%A"); index 0 is Sunday. -/
def weekdayName (w : Int) : String :=
  if w = 0 then "Sunday"
  else if w = 1 then "Monday"
  else if w = 2 then "Tuesday"
  else if w = 3 then "Wednesday"
  else if w = 4 then "Thursday"
  else if w = 5 then "Friday"
  else "Saturday"

/-- Full month name of strftime("%B"). -/
def monthName (m : Int) : String :=
  if m = 1 then "January"
  else if m = 2 then "February"
  else if m = 3 then "March"
  else if m = 4 then "April"
  else if m = 5 then "May"
  else if m = 6 then "June"
  else if m = 7 then "July"
  else if m = 8 then "August"
  else if m = 9 then "September"
  else if m = 10 then "October"
  else if m = 11 then "November"
  else "December"

/-- strftime("%A, %B %d") of the midnight of a day number (1970-01-01
was a Thursday). -/
def dateLongPhrase (z : Int) : String :=
  weekdayName ((z + 4) % 7) ++ ", " ++ monthName (civilFromDays z).2.1 ++
    " " ++ pad2 (civilFromDays z).2.2

/-- Python round: nearest integer, ties to even. -/
def pyRound (q : ℚ) : ℤ :=
  let f : ℤ := ⌊q⌋
  if q - f < 1/2 then f
  else if 1/2 < q - f then f + 1
  else if f % 2 = 0 then f else f + 1

/-- PartnerRecord of business_partner_lookup.py. -/
structure Partner where
  id : String
  name : String
  city : String
  country : String
deriving DecidableEq

/-- The static MOCK_PARTNERS table of business_partner_lookup.py. -/
def MOCK_PARTNERS : List Partner :=
  [⟨"BP001", "Acme Corp", "New York", "USA"⟩,
   ⟨"BP002", "TechVentures GmbH", "Berlin", "Germany"⟩,
   ⟨"BP003", "Global Innovations Ltd", "London", "UK"⟩,
   ⟨"BP004", "Pacific Solutions", "Tokyo", "Japan"⟩,
   ⟨"BP005", "Nordic Systems AB", "Stockholm", "Sweden"⟩,
   ⟨"BP006", "Alpine Technologies SA", "Zurich", "Switzerland"⟩,
   ⟨"BP007", "Southern Cross Enterprises", "Sydney", "Australia"⟩,
   ⟨"BP008", "Maple Leaf Industries", "Toronto", "Canada"⟩,
   ⟨"BP009", "Dragon Tech Co", "Shanghai", "China"⟩,
   ⟨"BP010", "Sunset Digital", "San Francisco", "USA"⟩]

/-- search_business_partner of business_partner_lookup.py: empty query
short-circuits (Python truthiness of str); otherwise the query is
lowercased and stripped, an exact case-insensitive pass runs first and
a substring pass second. -/
def search_business_partner (partner_name : String) : Option Partner :=
  if partner_name = "" then none
  else
    let search_term := strTrim (strLower partner_name)
    match MOCK_PARTNERS.find? (fun p => strLower p.name == search_term) with
    | some p => some p
    | none =>
      MOCK_PARTNERS.find? (fun p => strContainsSub (strLower p.name) search_term)

/-- ForecastRecord: the dict built by the weather tool. The date field
carries the strftime("%Y-%m-%d") string; float-valued fields are
rationals. -/
structure WeatherData where
  location : String
  date : String
  temperature_c : Int
  temperature_f : Int
  conditions : String
  precipitation_prob : ℚ
  wind_speed : ℚ
  humidity : Int
deriving DecidableEq

/-- One entry of the OpenWeatherMap forecast list: dt is the unix
timestamp, temp the metric temperature (main.temp), pop the optional
precipitation probability (forecast.get("pop", 0)). -/
structure ForecastEntry where
  dt : Int
  temp : ℚ
  description : String
  pop : Option ℚ
  wind_speed : ℚ
  humidity : Int
deriving DecidableEq

/-- The relevant parts of the OpenWeatherMap forecast response:
forecast_data["list"] and forecast_data["city"]["name"]. -/
structure ForecastData where
  list : List ForecastEntry
  city_name : String
deriving DecidableEq

/-- validate_date of weather_forecast.py: parse with fromisoformat,
then check today <= target_date <= today + timedelta(days=7), where
today = datetime.now() is the full current instant (now, in seconds)
and target_date is the parsed midnight. -/
def validate_date (now : Int) (date_str : String) : Bool :=
  match fromisoformat date_str with
  | some z => decide (now ≤ z * 86400 ∧ z * 86400 ≤ now + 7 * 86400)
  | none => false

/-- _get_mock_weather_data of weather_forecast.py. temp_base is
hash(city) % 20 + 10; the target date is datetime.now() unless a
truthy date argument parses; the record date is its
strftime("%Y-%m-%d"). -/
def _get_mock_weather_data (pyhash : String → Int) (now : Int)
    (city country : String) (date : Option String) : WeatherData :=
  let temp_base := pyhash city % 20 + 10
  let targetDay : Int :=
    match date with
    | some s =>
      if s = "" then now / 86400
      else
        match fromisoformat s with
        | some z => z
        | none => now / 86400
    | none => now / 86400
  { location := city ++ ", " ++ country
    date := printISO targetDay
    temperature_c := temp_base
    temperature_f := pyRound ((temp_base : ℚ) * 9 / 5 + 32)
    conditions := "partly cloudy"
    precipitation_prob := 20
    wind_speed := 15
    humidity := 65 }

/-- _process_forecast_data of weather_forecast.py: fail on an empty
forecast list, otherwise take the first entry (the documented
simplification: target_date is ignored), round the Celsius temperature,
and convert the unrounded Celsius value to Fahrenheit. The
fromtimestamp date is modelled in UTC. -/
def _process_forecast_data (forecast_data : ForecastData)
    (target_date : Option String) : Except String WeatherData :=
  match forecast_data.list with
  | [] => Except.error "Invalid forecast data received"
  | f :: _ =>
    Except.ok
      { location := forecast_data.city_name
        date := printISO (f.dt / 86400)
        temperature_c := pyRound f.temp
        temperature_f := pyRound (f.temp * 9 / 5 + 32)
        conditions := f.description
        precipitation_prob := (f.pop.getD 0) * 100
        wind_speed := f.wind_speed
        humidity := f.humidity }

/-- get_weather_forecast_data of weather_forecast.py: mock path when no
OPENWEATHERMAP_API_KEY is configured, otherwise the live two-call HTTP
path, which enters the model as the oracle live (its WeatherAPIError
outcomes are Except.error). -/
def get_weather_forecast_data (pyhash : String → Int) (now : Int)
    (api_key : String)
    (live : String → String → Option String → Except String WeatherData)
    (city country : String) (date : Option String) :
    Except String WeatherData :=
  if api_key = "" then
    Except.ok (_get_mock_weather_data pyhash now city country date)
  else live city country date

/-- get_weather_forecast_data in the credential-less configuration the
tests run under: always the mock path. -/
def mockFetch (pyhash : String → Int) (now : Int) :
    String → String → Option String → Except String WeatherData :=
  fun city country date =>
    get_weather_forecast_data pyhash now "" (fun _ _ _ => Except.error "")
      city country date

/-- The precipitation advice appended by format_weather_response. -/
def precipSentence (precip : ℚ) : String :=
  if 50 < precip then
    "There\x27s a " ++ toString (pyRound precip) ++
      "% chance of rain - pack an umbrella! "
  else if 20 < precip then
    "There\x27s a " ++ toString (pyRound precip) ++ "% chance of rain. "
  else ""

/-- The temperature advice appended by format_weather_response. -/
def tempSentence (temp_c : Int) : String :=
  if temp_c < 5 then "It will be quite cold, so dress warmly."
  else if 30 < temp_c then
    "It will be hot, so stay hydrated and consider light clothing."
  else ""

/-- format_weather_response of weather_forecast.py. The record's date
string is re-parsed with fromisoformat; an unparseable date raises
ValueError, modelled as none. partner_name is tested for Python
truthiness. -/
def format_weather_response (now : Int) (weather_data : WeatherData)
    (partner_name : Option String) : Option String :=
  match fromisoformat weather_data.date with
  | none => none
  | some z =>
    some
      ((match partner_name with
        | some p =>
          if p = "" then "The weather in " ++ weather_data.location ++ " "
          else
            "The weather in " ++ weather_data.location ++
              " for your visit to " ++ p ++ " "
        | none => "The weather in " ++ weather_data.location ++ " ") ++
       (if z = now / 86400 then "today "
        else if z = now / 86400 + 1 then "tomorrow "
        else "on " ++ dateLongPhrase z ++ " ") ++
       ("will be " ++ weather_data.conditions ++
         " with temperatures around " ++ toString weather_data.temperature_c ++
         "°C (" ++ toString weather_data.temperature_f ++ "°F). ") ++
       precipSentence weather_data.precipitation_prob ++
       tempSentence weather_data.temperature_c)

/-- The invalid-location message of the weather_forecast tool. -/
def invalidLocationMsg : String :=
  "Invalid location format. Please provide location as \x27City, Country\x27 (e.g., \x27Berlin, Germany\x27)"

/-- The date-rejection message of the weather_forecast tool. -/
def invalidDateMsg : String :=
  "Date must be within the next 7 days. Weather forecasts are only available for the next week."

/-- The weather_forecast tool of weather_forecast.py: split the
location on commas and strip each part, reject when fewer than two
parts, validate a truthy date argument, then fetch (the
get_weather_forecast_data call enters as the fetch parameter) and
format; WeatherAPIError becomes the unable-to-retrieve message. A none
result is the uncaught-exception path. -/
def weather_forecast
    (fetch : String → String → Option String → Except String WeatherData)
    (now : Int) (location : String) (date : Option String) : Option String :=
  match (splitComma location.data).map (fun cs => strTrim (String.mk cs)) with
  | city :: country :: _ =>
    if strTruthy date && !validate_date now (date.getD "") then
      some invalidDateMsg
    else
      match fetch city country date with
      | Except.ok w => format_weather_response now w none
      | Except.error e =>
        some ("Unable to retrieve weather data: " ++ e ++
          ". Please try again later.")
  | _ => some invalidLocationMsg

/-- Message roles of the langchain message classes used by agent.py. -/
inductive MsgRole
  | system
  | human
  | ai
  | tool
deriving DecidableEq

/-- A conversation message: its role, content, and whether the Python
object has a tool_calls attribute (hasattr(msg, "tool_calls")). -/
structure Msg where
  role : MsgRole
  content : String
  has_tool_calls_attr : Bool
deriving DecidableEq

/-- SYSTEM_PROMPT of agent.py. -/
def SYSTEM_PROMPT : String :=
  "You are a helpful AI assistant that helps users plan business trips by combining business partner information with weather forecasts.\n\nYour capabilities:\n1. Look up business partners from the Ariba MCP server (configured in the system)\n2. Retrieve weather forecasts for any location\n3. Combine partner data with weather information to provide integrated trip planning insights\n\nThe Ariba MCP server is available and provides tools for searching and retrieving business partner data.\nWhen a user asks about a business partner:\n1. Use the available MCP tools to search for and retrieve business partner information\n2. Extract the location (city, country) from the partner data\n3. Use the weather forecast tool to get weather for that location\n4. Provide a comprehensive response combining both\n\nBe conversational, friendly, and provide actionable travel advice based on weather conditions.\nFor example, if there\x27s high chance of rain, suggest packing an umbrella."

/-- The SystemMessage seeded by _prepare_messages. -/
def systemMessage : Msg := ⟨MsgRole.system, SYSTEM_PROMPT, false⟩

/-- The HumanMessage holding the current query. -/
def humanMessage (q : String) : Msg := ⟨MsgRole.human, q, false⟩

/-- WeatherAgent.MAX_CONTEXT_MESSAGES. -/
def MAX_CONTEXT_MESSAGES : Nat := 5

/-- WeatherAgent._prepare_messages of agent.py: system prompt, then
(when context_messages is truthy) its last MAX_CONTEXT_MESSAGES
entries, then the current query. -/
def _prepare_messages (query : String)
    (context_messages : Option (List Msg)) : List Msg :=
  let messages := [systemMessage]
  let messages := messages ++
    (match context_messages with
     | some ctx =>
       if ctx.isEmpty then []
       else ctx.drop (ctx.length - MAX_CONTEXT_MESSAGES)
     | none => [])
  messages ++ [humanMessage query]

/-- One event yielded by graph.astream inside WeatherAgent.stream:
whether the dict has a "messages" key, and that list when it does. -/
structure StreamEvent where
  has_messages : Bool
  messages : List Msg
deriving DecidableEq

/-- One dictionary yielded by WeatherAgent.stream. -/
structure Notice where
  is_task_complete : Bool
  require_user_input : Bool
  content : String
deriving DecidableEq

/-- The initial working notice of WeatherAgent.stream. -/
def processingNotice : Notice := ⟨false, false, "Processing your request..."⟩

/-- The fallback content of WeatherAgent.stream when no final response
was captured. -/
def fallbackContent : String :=
  "I processed your request but couldn\x27t generate a response. Please try again."

/-- The loop body of WeatherAgent.stream over the astream events:
final_response is overwritten by the content of each event's last
message that is an AIMessage without a tool_calls attribute; an event
carrying an empty messages list raises IndexError at messages[-1]. -/
def processEvents : Option String → List StreamEvent → Except String (Option String)
  | acc, [] => Except.ok acc
  | acc, e :: rest =>
    if e.has_messages then
      match e.messages.getLast? with
      | none => Except.error "list index out of range"
      | some m =>
        if m.role == MsgRole.ai && !m.has_tool_calls_attr then
          processEvents (some m.content) rest
        else processEvents acc rest
    else processEvents acc rest

/-- The final notice of WeatherAgent.stream: the error message when any
exception escaped the try block (outcome carries Except.error for an
exception raised by the model call or graph execution), the captured
final_response when truthy, and the fallback message otherwise. -/
def finalNotice (outcome : Except String (List StreamEvent)) : Notice :=
  match outcome.bind (processEvents none) with
  | Except.error e =>
    ⟨true, false, "I encountered an error: " ++ e ++ ". Please try again."⟩
  | Except.ok fr =>
    match fr with
    | some ans =>
      if ans = "" then ⟨true, false, fallbackContent⟩ else ⟨true, false, ans⟩
    | none => ⟨true, false, fallbackContent⟩

/-- WeatherAgent.stream of agent.py as the sequence of notices it
yields, given the outcome of iterating graph.astream. -/
def WeatherAgent_stream (outcome : Except String (List StreamEvent)) :
    List Notice :=
  [processingNotice, finalNotice outcome]

/-- Spec-side helper: the message-qualification test of the stream
loop (an AIMessage without a tool_calls attribute). -/
def qualifiesAnswer (m : Msg) : Bool :=
  m.role == MsgRole.ai && !m.has_tool_calls_attr

/-- Spec-side helper: the contents captured as final_response by the
stream loop, in order. -/
def answerContents (evs : List StreamEvent) : List String :=
  evs.filterMap (fun e =>
    if e.has_messages then
      e.messages.getLast?.bind
        (fun m => if qualifiesAnswer m then some m.content else none)
    else none)

/-- Spec-side helper: the content of the last qualifying message of the
event stream. -/
def lastAnswerContent (evs : List StreamEvent) : Option String :=
  (answerContents evs).reverse.head?

/-- The exact-match pass over a partner list whose lowercased names are
pairwise distinct returns the member carrying the searched name. -/
lemma find?_name_eq : ∀ (l : List Partner) (p : Partner), p ∈ l →
    (l.map (fun q => strLower q.name)).Nodup →
    l.find? (fun q => strLower q.name == strLower p.name) = some p := by
  intro l
  induction l with
  | nil => intro p hp _; simp at hp
  | cons a t ih =>
    intro p hp hnd
    rw [List.map_cons, List.nodup_cons] at hnd
    by_cases hk : strLower a.name = strLower p.name
    · have hap : a = p := by
        rcases List.mem_cons.mp hp with h1 | h2
        · exact h1.symm
        · refine (hnd.1 ?_).elim
          show strLower a.name ∈ List.map (fun q => strLower q.name) t
          rw [hk]
          exact List.mem_map_of_mem (fun q => strLower q.name) h2
      subst hap
      exact List.find?_cons_of_pos _ (by simp)
    · have hpt : p ∈ t := by
        rcases List.mem_cons.mp hp with h1 | h2
        · exact (hk (by rw [h1])).elim
        · exact h2
      rw [List.find?_cons_of_neg _
        (by simp only [beq_eq_false_iff_ne, ne_eq, Bool.not_eq_true]; exact hk)]
      exact ih p hpt hnd.2

/-- find? returns the head of the first satisfying suffix. -/
lemma find?_eq_some_of_split {α : Type} (P : α → Bool) (l1 : List α) (p : α)
    (l2 : List α) (hp : P p = true) (hl1 : ∀ q ∈ l1, P q = false) :
    (l1 ++ p :: l2).find? P = some p := by
  induction l1 with
  | nil => simpa using List.find?_cons_of_pos l2 hp
  | cons a t ih =>
    rw [List.cons_append,
      List.find?_cons_of_neg _ (by simp [hl1 a (List.mem_cons_self a t)])]
    exact ih (fun q hq => hl1 q (List.mem_cons_of_mem a hq))

/-- splitComma always produces at least one segment. -/
lemma splitComma_ne_nil (l : List Char) : splitComma l ≠ [] := by
  cases l with
  | nil => simp [splitComma]
  | cons c rest =>
    simp only [splitComma]
    split
    · simp
    · split <;> simp

/-- Without a comma, splitComma returns the whole input as the single
segment. -/
lemma splitComma_no_comma (l : List Char) (h : ¬ ',' ∈ l) : splitComma l = [l] := by
  induction l with
  | nil => rfl
  | cons c rest ih =>
    have hc : ¬ c = ',' := fun hc => h (by rw [hc]; exact List.mem_cons_self ',' rest)
    have hr : ¬ ',' ∈ rest := fun hm => h (List.mem_cons_of_mem c hm)
    simp only [splitComma, if_neg hc, ih hr]

/-- With a comma present, splitComma yields at least two segments. -/
lemma splitComma_len_ge2 (l : List Char) (h : ',' ∈ l) :
    2 ≤ (splitComma l).length := by
  induction l with
  | nil => simp at h
  | cons c rest ih =>
    by_cases hc : c = ','
    · subst hc
      have he : splitComma (',' :: rest) = [] :: splitComma rest := by
        simp [splitComma]
      rw [he, List.length_cons]
      have h1 : 0 < (splitComma rest).length :=
        List.length_pos.mpr (splitComma_ne_nil rest)
      omega
    · have hr : ',' ∈ rest := by
        rcases List.mem_cons.mp h with h1 | h2
        · exact (hc h1.symm).elim
        · exact h2
      have h2 := ih hr
      simp only [splitComma, if_neg hc]
      rcases he : splitComma rest with _ | ⟨hd, tl⟩
      · exact (splitComma_ne_nil rest he).elim
      · rw [he] at h2
        simpa using h2

/-- The head character of an append is the head of its nonempty left
part. -/
lemma head?_append_left (s t : String) (c : Char) (h : s.data.head? = some c) :
    (s ++ t).data.head? = some c := by
  rw [String.data_append, List.head?_append, h]
  rfl

/-- Strings with different first characters differ. -/
lemma ne_of_first_char {s t : String} {c d : Char} (hs : s.data.head? = some c)
    (ht : t.data.head? = some d) (hne : c ≠ d) : s ≠ t := by
  intro h
  rw [h, ht] at hs
  exact hne (Option.some.inj hs).symm

/-- The partner-dependent lead of format_weather_response starts with
the letter T. -/
lemma partnerHead_head (loc : String) (partner : Option String) :
    (match partner with
     | some p =>
       if p = "" then "The weather in " ++ loc ++ " "
       else "The weather in " ++ loc ++ " for your visit to " ++ p ++ " "
     | none => "The weather in " ++ loc ++ " ").data.head? = some 'T' := by
  have hT : ("The weather in ").data.head? = some 'T' := by decide
  rcases partner with _ | p
  · exact head?_append_left _ _ _ (head?_append_left _ _ _ hT)
  · by_cases hp0 : p = ""
    · simp only [if_pos hp0]
      exact head?_append_left _ _ _ (head?_append_left _ _ _ hT)
    · simp only [if_neg hp0]
      exact head?_append_left _ _ _ (head?_append_left _ _ _
        (head?_append_left _ _ _ (head?_append_left _ _ _ hT)))

/-- Every string produced by format_weather_response starts with the
letter T of "The weather in". -/
lemma format_head (now : Int) (w : WeatherData) (partner : Option String)
    (r : String) (h : format_weather_response now w partner = some r) :
    r.data.head? = some 'T' := by
  unfold format_weather_response at h
  rcases hp : fromisoformat w.date with _ | z
  · rw [hp] at h; exact absurd h (by simp)
  · rw [hp] at h
    have hr := (Option.some.inj h).symm
    subst hr
    exact head?_append_left _ _ _ (head?_append_left _ _ _
      (head?_append_left _ _ _ (head?_append_left _ _ _
        (partnerHead_head w.location partner))))

/-- C3: search_business_partner normalization and pass order, amended:
only the literally empty query short-circuits to not-found; a query
that is nonempty but normalizes to the empty string (for example a
whitespace-only query) survives the truthiness check and, since the
empty string is a substring of every name, the substring pass returns
the first record, Acme Corp. For queries with no exact
case-insensitive name match, the substring pass returns the first
record in list order whose lowercased name contains the normalized
query, and not-found when no record's name does; search of
"NonExistent Company" is not-found. -/
theorem search_business_partner_passes :
    search_business_partner "" = none ∧
    (∀ Q, Q ≠ "" → strTrim (strLower Q) = "" →
      search_business_partner Q = some ⟨"BP001", "Acme Corp", "New York", "USA"⟩) ∧
    (∀ Q, Q ≠ "" →
      (∀ p ∈ MOCK_PARTNERS, ¬ strLower p.name = strTrim (strLower Q)) →
      ((∀ l1 p l2, MOCK_PARTNERS = l1 ++ p :: l2 →
          strContainsSub (strLower p.name) (strTrim (strLower Q)) = true →
          (∀ q ∈ l1,
            strContainsSub (strLower q.name) (strTrim (strLower Q)) = false) →
          search_business_partner Q = some p) ∧
       ((∀ p ∈ MOCK_PARTNERS,
          strContainsSub (strLower p.name) (strTrim (strLower Q)) = false) →
        search_business_partner Q = none))) ∧
    search_business_partner "NonExistent Company" = none := by
  refine ⟨by decide, ?_, ?_, by decide⟩
  · intro Q hQ h
    simp only [search_business_partner]
    rw [if_neg hQ, h]
    decide
  · intro Q hQ hex
    have hfind : MOCK_PARTNERS.find?
        (fun p => strLower p.name == strTrim (strLower Q)) = none :=
      List.find?_eq_none.mpr (fun p hp => by
        simp only [beq_iff_eq]
        exact hex p hp)
    constructor
    · intro l1 p l2 hsplit hp hl1
      simp only [search_business_partner]
      rw [if_neg hQ, hfind, hsplit]
      exact find?_eq_some_of_split _ l1 p l2 hp
        (fun q hq => by rw [hl1 q hq])
    · intro hall
      simp only [search_business_partner]
      rw [if_neg hQ, hfind]
      exact List.find?_eq_none.mpr (fun p hp => by rw [hall p hp]; simp)

/-- C3 counterexample: the whitespace-only query " " is empty after
normalization, yet search_business_partner returns Acme Corp rather
than not-found. -/
theorem search_whitespace_query_cex :
    strTrim (strLower " ") = "" ∧
    search_business_partner " " =
      some ⟨"BP001", "Acme Corp", "New York", "USA"⟩ := by decide

/-- C3 witness: the query "acme" has no exact match and the substring
pass returns the first matching record in list order. -/
theorem search_business_partner_passes_witness :
    search_business_partner "acme" =
      some ⟨"BP001", "Acme Corp", "New York", "USA"⟩ :=
  ((search_business_partner_passes.2.2.1 "acme" (by decide) (by decide)).1)
    [] ⟨"BP001", "Acme Corp", "New York", "USA"⟩
    [⟨"BP002", "TechVentures GmbH", "Berlin", "Germany"⟩,
     ⟨"BP003", "Global Innovations Ltd", "London", "UK"⟩,
     ⟨"BP004", "Pacific Solutions", "Tokyo", "Japan"⟩,
     ⟨"BP005", "Nordic Systems AB", "Stockholm", "Sweden"⟩,
     ⟨"BP006", "Alpine Technologies SA", "Zurich", "Switzerland"⟩,
     ⟨"BP007", "Southern Cross Enterprises", "Sydney", "Australia"⟩,
     ⟨"BP008", "Maple Leaf Industries", "Toronto", "Canada"⟩,
     ⟨"BP009", "Dragon Tech Co", "Shanghai", "China"⟩,
     ⟨"BP010", "Sunset Digital", "San Francisco", "USA"⟩]
    rfl (by decide) (by simp)

/-- C4: whenever the lowercased, stripped query equals the lowercased
name of a seeded partner, search_business_partner returns that partner;
the exact-match pass runs over the whole list before any substring
matching, so this holds regardless of substring matches of earlier
records. -/
theorem search_exact_match_precedence (Q : String) (p : Partner)
    (hp : p ∈ MOCK_PARTNERS) (h : strTrim (strLower Q) = strLower p.name) :
    search_business_partner Q = some p := by
  have hQ : Q ≠ "" := by
    intro hq
    subst hq
    have h0 : strTrim (strLower "") = "" := by decide
    rw [h0] at h
    have hnames : ∀ q ∈ MOCK_PARTNERS, ¬ strLower q.name = "" := by decide
    exact hnames p hp h.symm
  simp only [search_business_partner]
  rw [if_neg hQ, h, find?_name_eq MOCK_PARTNERS p hp (by decide)]

/-- C4 witness: a mixed-case query with surrounding whitespace resolves
to the exactly matching record. -/
theorem search_exact_match_precedence_witness :
    search_business_partner "  ACME Corp " =
      some ⟨"BP001", "Acme Corp", "New York", "USA"⟩ :=
  search_exact_match_precedence "  ACME Corp "
    ⟨"BP001", "Acme Corp", "New York", "USA"⟩ (by decide) (by decide)

/-- C9: _prepare_messages produces exactly the system message, then the
most recent MAX_CONTEXT_MESSAGES (5) messages of the supplied context
(all of them when fewer, none when the context is absent), then the new
user turn, in that order and nothing else. -/
theorem prepare_messages_spec (query : String) (ctx : List Msg) :
    _prepare_messages query none = [systemMessage, humanMessage query] ∧
    ∃ dropped kept, ctx = dropped ++ kept ∧
      kept.length = min 5 ctx.length ∧
      _prepare_messages query (some ctx) =
        systemMessage :: (kept ++ [humanMessage query]) := by
  constructor
  · rfl
  · refine ⟨ctx.take (ctx.length - MAX_CONTEXT_MESSAGES),
      ctx.drop (ctx.length - MAX_CONTEXT_MESSAGES),
      (List.take_append_drop _ _).symm, ?_, ?_⟩
    · rw [List.length_drop]
      show ctx.length - (ctx.length - 5) = min 5 ctx.length
      omega
    · by_cases hc : ctx.isEmpty
      · have hnil : ctx = [] := by
          cases ctx with
          | nil => rfl
          | cons a t => simp [List.isEmpty] at hc
        subst hnil
        rfl
      · simp only [_prepare_messages, if_neg hc]
        simp [List.append_assoc]

/-- C2 (amended): validate_date is true iff the date string parses and
the parsed date's midnight lies between the current instant and the
current instant plus 7 days; unparseable strings give false. Because
datetime.now() carries the time of day, the current day's own date is
rejected whenever the instant is strictly past midnight. -/
theorem validate_date_spec (now : Int) (s : String) :
    (validate_date now s = true ↔
      ∃ z, fromisoformat s = some z ∧
        now ≤ z * 86400 ∧ z * 86400 ≤ now + 7 * 86400) ∧
    (fromisoformat s = none → validate_date now s = false) ∧
    (∀ z, fromisoformat s = some z → now / 86400 = z → z * 86400 < now →
      validate_date now s = false) := by
  refine ⟨?_, ?_, ?_⟩
  · rcases hp : fromisoformat s with _ | z
    · unfold validate_date
      rw [hp]
      simp [hp]
    · unfold validate_date
      rw [hp]
      simp only [decide_eq_true_eq]
      constructor
      · intro h
        exact ⟨z, rfl, h.1, h.2⟩
      · rintro ⟨z', hz', h1, h2⟩
        have hzz : z = z' := Option.some.inj hz'
        subst hzz
        exact ⟨h1, h2⟩
  · intro hn
    unfold validate_date
    rw [hn]
  · intro z hz _ hlt
    unfold validate_date
    rw [hz]
    simp only [decide_eq_false_iff_not, not_and]
    intro h1
    omega

/-- C2 counterexample: at the instant 1791766800 (one hour past
midnight of 2026-10-12, day number 20738), the string for the current
day parses to the current day, yet validate_date rejects it, although
the claim requires every date with today <= date <= today + 7 days to
be accepted. -/
theorem validate_date_today_rejected :
    fromisoformat "2026-10-12" = some 20738 ∧
    (1791766800 : Int) / 86400 = 20738 ∧
    validate_date 1791766800 "2026-10-12" = false := by decide

/-- C2 witness: the amended theorem applied at the concrete instant one
hour past midnight of 2026-10-12. -/
theorem validate_date_spec_witness :
    validate_date 1791766800 "2026-10-12" = false :=
  (validate_date_spec 1791766800 "2026-10-12").2.2 20738 (by decide)
    (by decide) (by decide)

/-- C5: mock forecast generation is deterministic and shape-fixed: the
temperature depends only on the city (the hash is a fixed function of
the process), lies between 10 and 30 degrees Celsius, the remaining
fields are the constants "partly cloudy" / 20 / 15 / 65, and the record
date is the parsed supplied date, defaulting to today when the date is
absent or unparseable. -/
theorem mock_weather_data_spec (pyhash : String → Int) (now now' : Int)
    (city country country' : String) (date date' : Option String) :
    (_get_mock_weather_data pyhash now city country date).temperature_c =
      (_get_mock_weather_data pyhash now' city country' date').temperature_c ∧
    10 ≤ (_get_mock_weather_data pyhash now city country date).temperature_c ∧
    (_get_mock_weather_data pyhash now city country date).temperature_c ≤ 30 ∧
    (_get_mock_weather_data pyhash now city country date).conditions =
      "partly cloudy" ∧
    (_get_mock_weather_data pyhash now city country date).precipitation_prob = 20 ∧
    (_get_mock_weather_data pyhash now city country date).wind_speed = 15 ∧
    (_get_mock_weather_data pyhash now city country date).humidity = 65 ∧
    (_get_mock_weather_data pyhash now city country none).date =
      printISO (now / 86400) ∧
    (∀ s z, fromisoformat s = some z → s ≠ "" →
      (_get_mock_weather_data pyhash now city country (some s)).date =
        printISO z) ∧
    (∀ s, fromisoformat s = none →
      (_get_mock_weather_data pyhash now city country (some s)).date =
        printISO (now / 86400)) := by
  have hb1 : 0 ≤ pyhash city % 20 := Int.emod_nonneg _ (by norm_num)
  have hb2 : pyhash city % 20 < 20 := Int.emod_lt_of_pos _ (by norm_num)
  refine ⟨rfl, ?_, ?_, rfl, rfl, rfl, rfl, rfl, ?_, ?_⟩
  · show 10 ≤ pyhash city % 20 + 10
    omega
  · show pyhash city % 20 + 10 ≤ 30
    omega
  · intro s z hz hs
    simp only [_get_mock_weather_data]
    rw [if_neg hs, hz]
  · intro s hz
    simp only [_get_mock_weather_data]
    by_cases hs : s = ""
    · rw [if_pos hs]
    · rw [if_neg hs, hz]

/-- C5 witness: the mock record for a concrete city with a concrete
parseable date carries that date, and the shape facts hold there. -/
theorem mock_weather_data_spec_witness :
    (_get_mock_weather_data (fun _ => 0) 0 "Berlin" "Germany"
        (some "2026-10-20")).date = printISO 20746 :=
  (mock_weather_data_spec (fun _ => 0) 0 0 "Berlin" "Germany" "Germany"
    (some "2026-10-20") (some "2026-10-20")).2.2.2.2.2.2.2.2.1
    "2026-10-20" 20746 (by decide) (by decide)

/-- C10: weather_forecast treats an empty-string date exactly like an
absent one: the results coincide for every location, the
date-rejection message is never produced for an empty date, and the
mock record date defaults to today. -/
theorem weather_forecast_empty_date (pyhash : String → Int) (now : Int)
    (loc : String) :
    weather_forecast (mockFetch pyhash now) now loc (some "") =
      weather_forecast (mockFetch pyhash now) now loc none ∧
    weather_forecast (mockFetch pyhash now) now loc (some "") ≠
      some invalidDateMsg ∧
    (∀ city country,
      (_get_mock_weather_data pyhash now city country (some "")).date =
        printISO (now / 86400)) := by
  refine ⟨?_, ?_, fun city country => rfl⟩
  · simp only [weather_forecast]
    rcases hp : (splitComma loc.data).map (fun cs => strTrim (String.mk cs))
      with _ | ⟨c1, tl⟩
    · rfl
    · rcases tl with _ | ⟨c2, rest⟩
      · rfl
      · rfl
  · simp only [weather_forecast]
    rcases hp : (splitComma loc.data).map (fun cs => strTrim (String.mk cs))
      with _ | ⟨c1, tl⟩
    · show some invalidLocationMsg ≠ some invalidDateMsg
      decide
    · rcases tl with _ | ⟨c2, rest⟩
      · show some invalidLocationMsg ≠ some invalidDateMsg
        decide
      · show format_weather_response now
            (_get_mock_weather_data pyhash now c1 c2 (some "")) none ≠
          some invalidDateMsg
        intro h
        rcases hf : format_weather_response now
            (_get_mock_weather_data pyhash now c1 c2 (some "")) none with _ | r
        · rw [hf] at h
          exact absurd h (by simp)
        · rw [hf] at h
          exact (ne_of_first_char (format_head now _ none r hf)
            (show invalidDateMsg.data.head? = some 'D' by decide)
            (by decide)) (Option.some.inj h)

/-- C1 (amended): the weather_forecast tool rejects a location with the
invalid-location message exactly when the location contains no comma at
all; len(parts) < 2 is the only guard, so any string containing a comma
proceeds to the lookup even when a segment is empty or extra segments
are present. -/
theorem weather_forecast_location_guard :
    (∀ fetch now loc date, ¬ ',' ∈ loc.data →
      weather_forecast fetch now loc date = some invalidLocationMsg) ∧
    (∀ fetch now loc date, ',' ∈ loc.data →
      weather_forecast fetch now loc date ≠ some invalidLocationMsg) := by
  constructor
  · intro fetch now loc date h
    simp only [weather_forecast]
    rw [splitComma_no_comma loc.data h]
    rfl
  · intro fetch now loc date h
    have h2 := splitComma_len_ge2 loc.data h
    rcases hp : (splitComma loc.data).map (fun cs => strTrim (String.mk cs))
      with _ | ⟨c1, tl⟩
    · have hlen := congrArg List.length hp
      rw [List.length_map] at hlen
      simp only [List.length_nil] at hlen
      omega
    · rcases tl with _ | ⟨c2, rest⟩
      · have hlen := congrArg List.length hp
        rw [List.length_map] at hlen
        simp only [List.length_cons, List.length_nil] at hlen
        omega
      · simp only [weather_forecast]
        rw [hp]
        show (if strTruthy date && !validate_date now (date.getD "") then
            some invalidDateMsg
          else
            match fetch c1 c2 date with
            | Except.ok w => format_weather_response now w none
            | Except.error e =>
              some ("Unable to retrieve weather data: " ++ e ++
                ". Please try again later.")) ≠ some invalidLocationMsg
        by_cases hd : (strTruthy date && !validate_date now (date.getD "")) = true
        · rw [if_pos hd]
          show some invalidDateMsg ≠ some invalidLocationMsg
          decide
        · rw [if_neg hd]
          rcases hfetch : fetch c1 c2 date with e | w
          · show some ("Unable to retrieve weather data: " ++ e ++
              ". Please try again later.") ≠ some invalidLocationMsg
            intro hh
            have hu : ("Unable to retrieve weather data: " ++ e ++
                ". Please try again later.").data.head? = some 'U' :=
              head?_append_left _ _ _ (head?_append_left _ _ _ (by decide))
            exact (ne_of_first_char hu
              (show invalidLocationMsg.data.head? = some 'I' by decide)
              (by decide)) (Option.some.inj hh)
          · show format_weather_response now w none ≠ some invalidLocationMsg
            intro hh
            rcases hf : format_weather_response now w none with _ | r
            · rw [hf] at hh
              exact absurd hh (by simp)
            · rw [hf] at hh
              exact (ne_of_first_char (format_head now w none r hf)
                (show invalidLocationMsg.data.head? = some 'I' by decide)
                (by decide)) (Option.some.inj hh)

/-- C1 witness: the location "InvalidFormat" has no comma and is
rejected with the invalid-location message, for any fetch oracle (so
with no lookup of any kind). -/
theorem weather_forecast_location_guard_witness :
    weather_forecast (fun _ _ _ => Except.error "x") 0 "InvalidFormat" none =
      some invalidLocationMsg :=
  weather_forecast_location_guard.1 (fun _ _ _ => Except.error "x") 0
    "InvalidFormat" none (by decide)

/-- C1 counterexample: the location "Berlin," has an empty country
segment, so it is not of the shape City, Country with two non-empty
segments, yet the tool does not reject it: the result does not carry
the "Invalid location format" prefix, and it does depend on the fetch
oracle, so a lookup is performed. -/
theorem weather_forecast_location_guard_cex :
    (weather_forecast (mockFetch (fun _ => 0) 0) 0 "Berlin," none).map
        (fun s => List.isPrefixOf "Invalid location format".data s.data) =
      some false ∧
    weather_forecast (mockFetch (fun _ => 0) 0) 0 "Berlin," none ≠
      weather_forecast (fun _ _ _ => Except.error "boom") 0 "Berlin," none := by
  have h1 : pyRound (((0 : Int) % 20 + 10 : Int) : ℚ) = 10 := by
    unfold pyRound
    norm_num
  have h2 : pyRound ((((0 : Int) % 20 + 10 : Int) : ℚ) * 9 / 5 + 32) = 50 := by
    unfold pyRound
    norm_num
  have hrec : _get_mock_weather_data (fun _ => 0) 0 "Berlin" "" none =
      ⟨"Berlin, ", "1970-01-01", 10, 50, "partly cloudy", 20, 15, 65⟩ := by
    simp only [_get_mock_weather_data, WeatherData.mk.injEq]
    refine ⟨by decide, by decide, by decide, ?_, by decide, by decide, by decide,
      by decide⟩
    exact h2
  have hpre : precipSentence 20 = "" := by
    unfold precipSentence
    norm_num
  have htmp : tempSentence 10 = "" := by
    unfold tempSentence
    norm_num
  have hfmt : format_weather_response 0
      ⟨"Berlin, ", "1970-01-01", 10, 50, "partly cloudy", 20, 15, 65⟩ none =
      some "The weather in Berlin,  today will be partly cloudy with temperatures around 10°C (50°F). " := by
    simp only [format_weather_response]
    rw [show fromisoformat "1970-01-01" = some 0 from by decide]
    rw [hpre, htmp]
    decide
  have hsplit : (splitComma "Berlin,".data).map (fun cs => strTrim (String.mk cs)) =
      ["Berlin", ""] := by decide
  have hwf : weather_forecast (mockFetch (fun _ => 0) 0) 0 "Berlin," none =
      some "The weather in Berlin,  today will be partly cloudy with temperatures around 10°C (50°F). " := by
    simp only [weather_forecast]
    rw [hsplit]
    show format_weather_response 0
        (_get_mock_weather_data (fun _ => 0) 0 "Berlin" "" none) none =
      some "The weather in Berlin,  today will be partly cloudy with temperatures around 10°C (50°F). "
    rw [hrec]
    exact hfmt
  have hwf2 : weather_forecast (fun _ _ _ => Except.error "boom") 0 "Berlin," none =
      some "Unable to retrieve weather data: boom. Please try again later." := by
    simp only [weather_forecast]
    rw [hsplit]
    decide
  refine ⟨?_, ?_⟩
  · rw [hwf]
    decide
  · rw [hwf, hwf2]
    decide

/-- C6 (amended): in a mock record temperature_f is the rounded
Fahrenheit conversion of the record's own temperature_c; in the
live-data path temperature_c is the rounded upstream Celsius value and
temperature_f is the rounded conversion of the unrounded upstream
value, so the two fields are consistent only up to that rounding
order. -/
theorem temperature_f_conversion :
    (∀ pyhash now city country date,
      (_get_mock_weather_data pyhash now city country date).temperature_f =
        pyRound
          (((_get_mock_weather_data pyhash now city country
            date).temperature_c : ℚ) * 9 / 5 + 32)) ∧
    (∀ fd td w, _process_forecast_data fd td = Except.ok w →
      ∃ f rest, fd.list = f :: rest ∧ w.temperature_c = pyRound f.temp ∧
        w.temperature_f = pyRound (f.temp * 9 / 5 + 32)) := by
  constructor
  · intro pyhash now city country date
    rfl
  · intro fd td w h
    rcases hl : fd.list with _ | ⟨f, rest⟩
    · unfold _process_forecast_data at h
      rw [hl] at h
      exact absurd h (by simp)
    · unfold _process_forecast_data at h
      rw [hl] at h
      refine ⟨f, rest, rfl, ?_, ?_⟩
      · injection h with hw
        rw [← hw]
      · injection h with hw
        rw [← hw]

/-- C6 counterexample: an upstream temperature of 0.4 degrees Celsius
produces temperature_c = 0 and temperature_f = 33, while converting the
record's own temperature_c would give round(0 * 9/5 + 32) = 32. -/
theorem temperature_f_conversion_cex :
    (_process_forecast_data
        ⟨[⟨0, 2/5, "light rain", some 0, 5, 50⟩], "X"⟩ none).map
        (fun w => (w.temperature_c, w.temperature_f)) = Except.ok (0, 33) ∧
    pyRound (((0 : Int) : ℚ) * 9 / 5 + 32) = 32 := by
  constructor
  · show Except.ok (pyRound ((2 : ℚ)/5), pyRound ((2 : ℚ)/5 * 9 / 5 + 32)) =
      Except.ok ((0 : Int), (33 : Int))
    have ha : pyRound ((2 : ℚ)/5) = 0 := by
      unfold pyRound
      norm_num
    have hb : pyRound ((2 : ℚ)/5 * 9 / 5 + 32) = 33 := by
      unfold pyRound
      norm_num
    rw [ha, hb]
  · unfold pyRound
    norm_num

/-- C6 witness: both components of the amended theorem applied at
concrete inputs (mock record for Berlin; a live entry at 5 degrees
Celsius, where round(5 * 9/5 + 32) = 41). -/
theorem temperature_f_conversion_witness :
    ((_get_mock_weather_data (fun _ => 0) 0 "Berlin" "Germany"
        none).temperature_f =
      pyRound
        (((_get_mock_weather_data (fun _ => 0) 0 "Berlin" "Germany"
          none).temperature_c : ℚ) * 9 / 5 + 32)) ∧
    ∃ f rest,
      (ForecastData.mk [⟨0, 5, "clear sky", some 0, 5, 50⟩] "X").list =
        f :: rest ∧
      ((5 : Int) = pyRound f.temp) ∧ ((41 : Int) = pyRound (f.temp * 9 / 5 + 32)) := by
  constructor
  · exact temperature_f_conversion.1 (fun _ => 0) 0 "Berlin" "Germany" none
  · refine temperature_f_conversion.2 ⟨[⟨0, 5, "clear sky", some 0, 5, 50⟩], "X"⟩
      none ⟨"X", "1970-01-01", 5, 41, "clear sky", 0, 5, 50⟩ ?_
    show Except.ok (WeatherData.mk "X" (printISO ((0 : Int) / 86400))
        (pyRound (5 : ℚ)) (pyRound ((5 : ℚ) * 9 / 5 + 32)) "clear sky"
        (((some (0 : ℚ)).getD 0) * 100) 5 50) =
      Except.ok (WeatherData.mk "X" "1970-01-01" 5 41 "clear sky" 0 5 50)
    have ha : pyRound ((5 : ℚ)) = 5 := by
      unfold pyRound
      norm_num
    have hb : pyRound ((5 : ℚ) * 9 / 5 + 32) = 41 := by
      unfold pyRound
      norm_num
    rw [ha, hb]
    norm_num
    decide

/-- C7: format_weather_response appends exactly the advice dictated by
the thresholds: above 50 percent precipitation the output ends with the
percentage-and-umbrella sentence, between 20 (exclusive) and 50
(inclusive) with the percentage-only sentence, at or below 20 with no
precipitation sentence; below 5 degrees with the dress-warmly sentence,
above 30 with the hydration sentence, and otherwise with no temperature
sentence. -/
theorem format_weather_advice_rules (now : Int) (w : WeatherData)
    (partner : Option String) (r : String)
    (h : format_weather_response now w partner = some r) :
    ∃ pre, r = pre ++ precipSentence w.precipitation_prob ++
        tempSentence w.temperature_c ∧
      (50 < w.precipitation_prob →
        precipSentence w.precipitation_prob =
          "There\x27s a " ++ toString (pyRound w.precipitation_prob) ++
            "% chance of rain - pack an umbrella! ") ∧
      (20 < w.precipitation_prob → w.precipitation_prob ≤ 50 →
        precipSentence w.precipitation_prob =
          "There\x27s a " ++ toString (pyRound w.precipitation_prob) ++
            "% chance of rain. ") ∧
      (w.precipitation_prob ≤ 20 → precipSentence w.precipitation_prob = "") ∧
      (w.temperature_c < 5 →
        tempSentence w.temperature_c =
          "It will be quite cold, so dress warmly.") ∧
      (30 < w.temperature_c →
        tempSentence w.temperature_c =
          "It will be hot, so stay hydrated and consider light clothing.") ∧
      (5 ≤ w.temperature_c → w.temperature_c ≤ 30 →
        tempSentence w.temperature_c = "") := by
  unfold format_weather_response at h
  rcases hp : fromisoformat w.date with _ | z
  · rw [hp] at h
    exact absurd h (by simp)
  · rw [hp] at h
    have hr := (Option.some.inj h).symm
    refine ⟨_, hr, ?_, ?_, ?_, ?_, ?_, ?_⟩
    · intro h50
      unfold precipSentence
      rw [if_pos h50]
    · intro h20 h50
      unfold precipSentence
      rw [if_neg (not_lt.mpr h50), if_pos h20]
    · intro h20
      unfold precipSentence
      rw [if_neg (not_lt.mpr (le_trans h20 (by norm_num))),
        if_neg (not_lt.mpr h20)]
    · intro h5
      unfold tempSentence
      rw [if_pos h5]
    · intro h30
      unfold tempSentence
      rw [if_neg (by omega), if_pos h30]
    · intro h5 h30
      unfold tempSentence
      rw [if_neg (by omega), if_neg (by omega)]

/-- C7 witness: a concrete record with 60 percent precipitation and 3
degrees Celsius formats to a string ending with the umbrella and
dress-warmly sentences. -/
theorem format_weather_advice_rules_witness :
    ∃ pre,
      "The weather in Berlin, Germany today will be partly cloudy with temperatures around 3°C (37°F). There\x27s a 60% chance of rain - pack an umbrella! It will be quite cold, so dress warmly." =
        pre ++ precipSentence 60 ++ tempSentence 3 := by
  have h60 : precipSentence 60 =
      "There\x27s a 60% chance of rain - pack an umbrella! " := by
    unfold precipSentence
    rw [if_pos (by norm_num)]
    rw [show pyRound (60 : ℚ) = 60 from by unfold pyRound; norm_num]
    decide
  have h3 : tempSentence 3 = "It will be quite cold, so dress warmly." := by
    decide
  have hfmt : format_weather_response 0
      ⟨"Berlin, Germany", "1970-01-01", 3, 37, "partly cloudy", 60, 15, 65⟩
      none =
      some "The weather in Berlin, Germany today will be partly cloudy with temperatures around 3°C (37°F). There\x27s a 60% chance of rain - pack an umbrella! It will be quite cold, so dress warmly." := by
    simp only [format_weather_response]
    rw [show fromisoformat "1970-01-01" = some 0 from by decide]
    rw [h60, h3]
    decide
  exact (format_weather_advice_rules 0
    ⟨"Berlin, Germany", "1970-01-01", 3, 37, "partly cloudy", 60, 15, 65⟩
    none _ hfmt).imp (fun pre hp => hp.1)

/-- The stream loop body refines the spec-side last-answer function:
when no yielded event carries an empty messages list, the loop ends
with the content of the last qualifying message, or the accumulator
when none qualifies. -/
lemma processEvents_eq (evs : List StreamEvent)
    (h : ∀ e ∈ evs, e.has_messages = true → e.messages ≠ []) :
    ∀ acc, processEvents acc evs =
      Except.ok ((lastAnswerContent evs).or acc) := by
  induction evs with
  | nil => intro acc; rfl
  | cons e rest ih =>
    intro acc
    have hrest : ∀ e' ∈ rest, e'.has_messages = true → e'.messages ≠ [] :=
      fun e' he' => h e' (List.mem_cons_of_mem e he')
    by_cases hm : e.has_messages = true
    · have hne : e.messages ≠ [] := h e (List.mem_cons_self e rest) hm
      rcases hl : e.messages.getLast? with _ | m
      · exact absurd (List.getLast?_eq_none_iff.mp hl) hne
      · have hstep : processEvents acc (e :: rest) =
            (if m.role == MsgRole.ai && !m.has_tool_calls_attr then
              processEvents (some m.content) rest
            else processEvents acc rest) := by
          simp only [processEvents, hm, if_true, hl]
        by_cases hq : (m.role == MsgRole.ai && !m.has_tool_calls_attr) = true
        · rw [hstep, if_pos hq, ih hrest (some m.content)]
          have hla : lastAnswerContent (e :: rest) =
              (lastAnswerContent rest).or (some m.content) := by
            unfold lastAnswerContent answerContents
            rw [List.filterMap_cons]
            have hfe : (if e.has_messages = true then
                e.messages.getLast?.bind (fun m' =>
                  if qualifiesAnswer m' = true then some m'.content else none)
                else none) = some m.content := by
              rw [if_pos hm, hl]
              show (if qualifiesAnswer m = true then some m.content else none) =
                some m.content
              rw [if_pos (show qualifiesAnswer m = true from hq)]
            rw [hfe, List.reverse_cons, List.head?_append]
            rfl
          rw [hla, Option.or_assoc]
          rfl
        · rw [hstep, if_neg hq, ih hrest acc]
          have hla : lastAnswerContent (e :: rest) = lastAnswerContent rest := by
            unfold lastAnswerContent answerContents
            rw [List.filterMap_cons]
            have hfe : (if e.has_messages = true then
                e.messages.getLast?.bind (fun m' =>
                  if qualifiesAnswer m' = true then some m'.content else none)
                else none) = none := by
              rw [if_pos hm, hl]
              show (if qualifiesAnswer m = true then some m.content else none) =
                none
              rw [if_neg (show ¬ qualifiesAnswer m = true from hq)]
            rw [hfe]
          rw [hla]
    · have hm' : e.has_messages = false := by
        rwa [Bool.not_eq_true] at hm
      have hstep : processEvents acc (e :: rest) = processEvents acc rest := by
        simp [processEvents, hm']
      rw [hstep, ih hrest acc]
      have hla : lastAnswerContent (e :: rest) = lastAnswerContent rest := by
        unfold lastAnswerContent answerContents
        rw [List.filterMap_cons]
        have hfe : (if e.has_messages = true then
            e.messages.getLast?.bind (fun m' =>
              if qualifiesAnswer m' = true then some m'.content else none)
            else none) = none := by
          rw [if_neg hm]
        rw [hfe]
      rw [hla]

/-- C8 (amended): every stream execution yields exactly the processing
notice followed by one completed notice (is_task_complete true, no
separate failed state); on an exception the completed notice embeds the
exception text; otherwise, when no event carries an empty messages
list, it carries the content of the last streamed message that is an
AIMessage without a tool_calls attribute if that content is truthy, and
the fixed fallback apology otherwise. -/
theorem agent_stream_notices (outcome : Except String (List StreamEvent)) :
    WeatherAgent_stream outcome = [processingNotice, finalNotice outcome] ∧
    processingNotice.is_task_complete = false ∧
    (finalNotice outcome).is_task_complete = true ∧
    (finalNotice outcome).require_user_input = false ∧
    (∀ e, outcome = Except.error e →
      (finalNotice outcome).content =
        "I encountered an error: " ++ e ++ ". Please try again.") ∧
    (∀ evs, outcome = Except.ok evs →
      (∀ ev ∈ evs, ev.has_messages = true → ev.messages ≠ []) →
      ((∃ ans, lastAnswerContent evs = some ans ∧ ans ≠ "" ∧
          (finalNotice outcome).content = ans) ∨
       ((∀ ans, lastAnswerContent evs = some ans → ans = "") ∧
        (finalNotice outcome).content = fallbackContent))) := by
  have hfin : ∃ c, finalNotice outcome = ⟨true, false, c⟩ := by
    unfold finalNotice
    rcases outcome.bind (processEvents none) with e | fr
    · exact ⟨_, rfl⟩
    · rcases fr with _ | ans
      · exact ⟨_, rfl⟩
      · by_cases h0 : ans = ""
        · refine ⟨fallbackContent, ?_⟩
          show (if ans = "" then (⟨true, false, fallbackContent⟩ : Notice)
            else ⟨true, false, ans⟩) = ⟨true, false, fallbackContent⟩
          rw [if_pos h0]
        · refine ⟨ans, ?_⟩
          show (if ans = "" then (⟨true, false, fallbackContent⟩ : Notice)
            else ⟨true, false, ans⟩) = ⟨true, false, ans⟩
          rw [if_neg h0]
  obtain ⟨c, hc⟩ := hfin
  refine ⟨rfl, rfl, by rw [hc], by rw [hc], ?_, ?_⟩
  · intro e he
    subst he
    rfl
  · intro evs he hnm
    subst he
    have hpe := processEvents_eq evs hnm none
    have hbind : (Except.ok evs : Except String (List StreamEvent)).bind
        (processEvents none) = Except.ok ((lastAnswerContent evs).or none) := by
      rw [show (Except.ok evs : Except String (List StreamEvent)).bind
        (processEvents none) = processEvents none evs from rfl, hpe]
    rcases hla : lastAnswerContent evs with _ | ans
    · right
      constructor
      · intro a ha
        cases ha
      · unfold finalNotice
        rw [hbind, hla]
        rfl
    · by_cases h0 : ans = ""
      · right
        constructor
        · intro a ha
          rw [← Option.some.inj ha]
          exact h0
        · unfold finalNotice
          rw [hbind, hla]
          show (if ans = "" then (⟨true, false, fallbackContent⟩ : Notice)
            else ⟨true, false, ans⟩).content = fallbackContent
          rw [if_pos h0]
      · left
        refine ⟨ans, rfl, h0, ?_⟩
        unfold finalNotice
        rw [hbind, hla]
        show (if ans = "" then (⟨true, false, fallbackContent⟩ : Notice)
          else ⟨true, false, ans⟩).content = ans
        rw [if_neg h0]

/-- C8 counterexample: an exception-free execution whose only streamed
message is model-authored with content "Hello" but carries a tool_calls
attribute (as every langchain AIMessage does): the final completed
notice carries the fallback apology, which is neither the model's
answer text nor an error message. -/
theorem agent_stream_notices_cex :
    WeatherAgent_stream
        (Except.ok [⟨true, [⟨MsgRole.ai, "Hello", true⟩]⟩]) =
      [processingNotice, ⟨true, false, fallbackContent⟩] ∧
    fallbackContent ≠ "Hello" := by
  constructor
  · rfl
  · decide

/-- C8 witness: the amended theorem applied to an execution that raises
an exception with text "boom". -/
theorem agent_stream_notices_witness :
    ∃ fin, WeatherAgent_stream (Except.error "boom") =
        [processingNotice, fin] ∧
      fin.content = "I encountered an error: boom. Please try again." := by
  obtain ⟨h1, _, _, _, herr, _⟩ := agent_stream_notices (Except.error "boom")
  exact ⟨finalNotice (Except.error "boom"), h1, herr "boom" rfl⟩

/-- C9 witness: the seeded conversation for an absent context is
exactly the system message and the user turn. -/
theorem prepare_messages_spec_witness :
    _prepare_messages "hi" none = [systemMessage, humanMessage "hi"] :=
  (prepare_messages_spec "hi" []).1

/-- C10 witness: for a concrete location the empty-string date call
coincides with the absent-date call. -/
theorem weather_forecast_empty_date_witness :
    weather_forecast (mockFetch (fun _ => 0) 0) 0 "Berlin, Germany" (some "") =
      weather_forecast (mockFetch (fun _ => 0) 0) 0 "Berlin, Germany" none :=
  (weather_forecast_empty_date (fun _ => 0) 0 "Berlin, Germany").1
